import Mathlib

/-!
Shallow embedding of the kutter real-time relay (src/routes/chat.rs,
src/routes/friend.rs, src/middlewares.rs).

Database tables are modelled as lists of rows; SQL queries become list
scans in row order (`find?` models `fetch_one`/`fetch_optional`, `any`
models `SELECT EXISTS`).  Timestamps are `Nat` values passed in for
`Utc::now()`.  The per-connection inbound loop is modelled as a step
function from one parsed frame to a result: the updated database, the
updated session registry, the events published on the broadcast bus,
the error frames written back to the calling socket only, and whether
the loop keeps reading (`continueLoop`) or exits (`stop`, for `return`
and `break` in the Rust handlers).  The outbound loop is a step function
over the three things its `select!` can observe: a bus event, the bus
closing, and the liveness-watchdog arm firing.

Note on identities: `generate_token(user.email, user.username)` in
auth.rs fills `Claims { sub, email }` with `sub = email` and
`email = username`, so in both ws handlers the local `email` variable
holds the e-mail address (the registry key) and `username` holds the
display username.  The model keeps both strings separate.
-/

namespace Kutter

/-- Row of the `messages` table (chat.rs `create_table`): id, chat_id,
email, username, message, replied_user, replied_message, time, edited. -/
structure MessageRow where
  id : Int
  chat_id : Int
  email : String
  username : String
  message : String
  replied_user : Option String
  replied_message : Option String
  time : Nat
  edited : Bool
deriving DecidableEq

/-- The `ChatMessage` struct carried by outgoing chat events (chat.rs). -/
structure ChatMessage where
  id : Option Int
  chat_id : Option Int
  username : String
  message : String
  replied_user : Option String
  replied_message : Option String
  time : Nat
  edited : Bool
deriving DecidableEq

/-- `SELECT * FROM messages ... RETURNING *` materialised into the
`ChatMessage` struct (the extra `email` column is not part of the struct). -/
def MessageRow.toChatMessage (r : MessageRow) : ChatMessage :=
  { id := some r.id, chat_id := some r.chat_id, username := r.username,
    message := r.message, replied_user := r.replied_user,
    replied_message := r.replied_message, time := r.time, edited := r.edited }

/-- Row of the `chats` table (chat.rs `chats`). -/
structure Chat where
  id : Int
  first_user_name : String
  second_user_name : String
  last_update : Nat
deriving DecidableEq

/-- The `Bio` struct (username, biography) selected from `users`. -/
structure Bio where
  username : String
  biography : Option String
deriving DecidableEq

/-- Row of the `users` table (auth.rs `create_user_table`), restricted to
the columns the relay reads. -/
structure UserRow where
  username : String
  email : String
  biography : Option String
deriving DecidableEq

/-- Row of the `friends` table (friend.rs `friend_table`). -/
structure FriendRow where
  id : Int
  sender_username : String
  receiver_username : String
  status : String
deriving DecidableEq

/-- chat.rs `OutgoingMessage`: the chat-domain broadcast event union. -/
inductive OutgoingMessage
  | NewMessage (m : ChatMessage)
  | EditMessage (m : ChatMessage)
  | Delete (message_id : Int)
  | NewChat (c : Chat)
  | ChangeBio (b : Bio)
deriving DecidableEq

/-- friend.rs `FriendRequestStatus`. -/
structure FriendRequestStatus where
  id : Int
  sender_username : String
  receiver_username : String
  status : String
deriving DecidableEq

/-- friend.rs `FriendAction`: the friend-domain broadcast event union. -/
inductive FriendAction
  | SendRequest (f : FriendRow)
  | Accept (s : FriendRequestStatus)
deriving DecidableEq

/-- The persistent store: one list per table, in row order, plus the
`SERIAL` sequences used for freshly inserted ids. -/
structure Db where
  users : List UserRow
  chats : List Chat
  messages : List MessageRow
  friends : List FriendRow
  nextChatId : Int
  nextMessageId : Int
  nextFriendId : Int
deriving DecidableEq

/-- chat.rs `NewMessage` inbound payload. -/
structure NewMessage where
  message : String
  chat_partner : Option String
  reply : Option Int
deriving DecidableEq

/-- chat.rs `EditMessage` inbound payload. -/
structure EditMessage where
  message_id : Int
  message : String
deriving DecidableEq

/-- chat.rs `NewChat` inbound payload. -/
structure NewChat where
  second_user_name : Option String
deriving DecidableEq

/-- chat.rs `ChangeBio` inbound payload. -/
structure ChangeBio where
  biography : Option String
deriving DecidableEq

/-- chat.rs `DeleteMessageRequest` inbound payload. -/
structure DeleteMessageRequest where
  id : Int
deriving DecidableEq

/-- friend.rs `FriendRequestPayload` inbound payload. -/
structure FriendRequestPayload where
  receiver_username : String
deriving DecidableEq

/-- Lexicographic (code-point) order on character lists, modelling the
Postgres `>`, `LEAST` and `GREATEST` comparisons on `VARCHAR`. -/
def charListLt : List Char → List Char → Bool
  | [], [] => false
  | [], _ :: _ => true
  | _ :: _, [] => false
  | a :: as, b :: bs =>
    if a.toNat < b.toNat then true
    else if b.toNat < a.toNat then false
    else charListLt as bs

/-- String comparison used by the chat-ordering trigger. -/
def strLt (s t : String) : Bool := charListLt s.data t.data

/-- SQL `LEAST($1,$2)` on varchar. -/
def strLeast (a b : String) : String := if strLt b a then b else a

/-- SQL `GREATEST($1,$2)` on varchar. -/
def strGreatest (a b : String) : String := if strLt b a then a else b

/-- The `enforce_chat_order` trigger function (chat.rs:137-151): before
insert or update on `chats`, if `first_user_name > second_user_name`,
the two columns are swapped. -/
def enforce_chat_order (first second : String) : String × String :=
  if strLt second first then (second, first) else (first, second)

/-- `SELECT id FROM chats WHERE (first_user_name = $1 AND second_user_name
= $2) OR (first_user_name = $2 AND second_user_name = $1)` (chat.rs:251). -/
def findChatByPair (db : Db) (u p : String) : Option Chat :=
  db.chats.find? (fun c =>
    (c.first_user_name == u && c.second_user_name == p) ||
    (c.first_user_name == p && c.second_user_name == u))

/-- `SELECT EXISTS(SELECT * FROM chats WHERE id = $1 AND (first_user_name
= $2 OR second_user_name = $2))` (chat.rs:717, chat.rs:881). -/
def chatMembershipExists (db : Db) (cid : Int) (who : String) : Bool :=
  db.chats.any (fun c => c.id == cid &&
    (c.first_user_name == who || c.second_user_name == who))

/-- `SELECT id FROM chats WHERE first_user_name = $1 OR second_user_name
= $1` (chat.rs:196, chat.rs:810). -/
def chatIdsOf (db : Db) (u : String) : List Int :=
  (db.chats.filter (fun c =>
    c.first_user_name == u || c.second_user_name == u)).map (fun c => c.id)

/-- `SELECT EXISTS(SELECT * FROM friends WHERE (sender_username = $1 AND
receiver_username = $2) OR (sender_username = $2 AND receiver_username =
$1))` (chat.rs:548, friend.rs:168): existence in either direction, with
no condition on `status`. -/
def friendshipExists (db : Db) (u v : String) : Bool :=
  db.friends.any (fun f =>
    (f.sender_username == u && f.receiver_username == v) ||
    (f.sender_username == v && f.receiver_username == u))

/-- `SELECT id FROM chats WHERE (first_user_name = LEAST($1,$2) AND
second_user_name = GREATEST($1,$2))` (chat.rs:571). -/
def chatPairExists (db : Db) (u v : String) : Bool :=
  db.chats.any (fun c =>
    c.first_user_name == strLeast u v && c.second_user_name == strGreatest u v)

/-- `SELECT EXISTS(SELECT * FROM users WHERE username = $1)` (friend.rs:145). -/
def userExists (db : Db) (u : String) : Bool :=
  db.users.any (fun r => r.username == u)

/-- `SELECT ... FROM friends WHERE id = $1` via `fetch_one`/`fetch_optional`. -/
def findFriendById (db : Db) (fid : Int) : Option FriendRow :=
  db.friends.find? (fun f => f.id == fid)

/-- `SELECT ... FROM messages WHERE id = $1`. -/
def findMessageById (db : Db) (mid : Int) : Option MessageRow :=
  db.messages.find? (fun m => m.id == mid)

/-- `INSERT INTO chats (first_user_name, second_user_name) VALUES ($1,$2)
RETURNING *`: the `enforce_chat_order` trigger fires BEFORE INSERT, so
the stored row holds the canonicalized pair; `id` comes from the serial
sequence and `last_update` defaults to the current timestamp. -/
def insertChat (db : Db) (u p : String) (now : Nat) : Db × Chat :=
  let ab := enforce_chat_order u p
  let c : Chat := { id := db.nextChatId, first_user_name := ab.1,
                    second_user_name := ab.2, last_update := now }
  ({ db with chats := db.chats ++ [c], nextChatId := db.nextChatId + 1 }, c)

/-- `INSERT INTO messages (...) VALUES (...) RETURNING *` (chat.rs:357,
chat.rs:404); `edited` defaults to false. -/
def insertMessage (db : Db) (cid : Int) (email username text : String)
    (ru rm : Option String) (now : Nat) : Db × MessageRow :=
  let r : MessageRow :=
    { id := db.nextMessageId, chat_id := cid, email := email,
      username := username, message := text, replied_user := ru,
      replied_message := rm, time := now, edited := false }
  ({ db with
       messages := db.messages ++ [r]
       nextMessageId := db.nextMessageId + 1 }, r)

/-- `UPDATE chats SET last_update = $1 WHERE id = $2` (chat.rs:370-380). -/
def bumpLastUpdate (db : Db) (cid : Int) (now : Nat) : Db :=
  { db with chats := db.chats.map (fun c =>
      if c.id == cid then { c with last_update := now } else c) }

/-- chat.rs / friend.rs `UserSession` (the live session record). -/
structure UserSession where
  email : String
  username : String
  user_chats : List Int
deriving DecidableEq

/-- The session registry `HashMap<String, UserSession>` keyed by the
e-mail address (chat.rs:222, friend.rs:109), modelled as an association
list in insertion order. -/
abbrev Registry := List (String × UserSession)

/-- `sessions.contains_key(&broadcast_email)`. -/
def registryContains (reg : Registry) (k : String) : Bool :=
  reg.any (fun e => e.1 == k)

/-- `sessions.get(&broadcast_email)`. -/
def registryLookup (reg : Registry) (k : String) : Option UserSession :=
  (reg.find? (fun e => e.1 == k)).map (fun e => e.2)

/-- The mutable walk in `AppState::update_user_chats` (chat.rs:817-823):
update the first session whose `username` matches, then `break`. -/
def updateFirstSession (username : String) (ids : List Int) :
    List (String × UserSession) → List (String × UserSession)
  | [] => []
  | (k, s) :: rest =>
    if s.username == username then (k, { s with user_chats := ids }) :: rest
    else (k, s) :: updateFirstSession username ids rest

/-- `AppState::update_user_chats` (chat.rs:809-826): recompute the chat id
list for `username` from the store, then patch the first matching live
session (absent identities are silently ignored). -/
def update_user_chats (db : Db) (reg : Registry) (username : String) : Registry :=
  updateFirstSession username (chatIdsOf db username) reg

/-- Whether the inbound loop keeps reading frames after a handler:
`continueLoop` for fall-through / `continue`, `stop` for the handler
paths that `return` or `break` out of the read loop. -/
inductive LoopControl
  | continueLoop
  | stop
deriving DecidableEq

/-- Result of processing one inbound chat-domain frame: new store, new
registry, events published on the bus, error frames written back to the
originating socket only, and the loop control. -/
structure ChatStep where
  db : Db
  reg : Registry
  published : List OutgoingMessage
  errors : List String
  control : LoopControl
deriving DecidableEq

/-- The `"new_message"` handler (chat.rs:245-443).  A payload with no
`chat_partner` falls through silently.  Otherwise the chat id is
resolved, lazily inserting the chat row when the pair has none.  When
`reply` is set, the replied message is fetched: a missing row sends an
error frame and `continue`s; a row from another chat sends the
cross-chat error frame and inserts nothing; a row of the same chat is
denormalized into the insert.  A successful insert bumps the
`last_update` of the chat and publishes `NewMessage`. -/
def handle_new_message (username email : String) (p : NewMessage) (db : Db)
    (reg : Registry) (now : Nat) : ChatStep :=
  match p.chat_partner with
  | none => ⟨db, reg, [], [], .continueLoop⟩
  | some partner =>
    let resolved : Db × Int :=
      match findChatByPair db username partner with
      | some c => (db, c.id)
      | none =>
        let dc := insertChat db username partner now
        (dc.1, dc.2.id)
    let db1 := resolved.1
    let chat_id := resolved.2
    match p.reply with
    | some rid =>
      match findMessageById db1 rid with
      | none => ⟨db1, reg, [],
          ["Error selecting replied message chat id"], .continueLoop⟩
      | some rmsg =>
        if rmsg.chat_id == chat_id then
          let dm := insertMessage db1 chat_id email username p.message
            (some rmsg.username) (some rmsg.message) now
          let db2 := bumpLastUpdate dm.1 chat_id now
          ⟨db2, reg, [OutgoingMessage.NewMessage dm.2.toChatMessage], [],
            .continueLoop⟩
        else
          ⟨db1, reg, [], ["You can not reply a message from other chat"],
            .continueLoop⟩
    | none =>
      let dm := insertMessage db1 chat_id email username p.message none none now
      let db2 := bumpLastUpdate dm.1 chat_id now
      ⟨db2, reg, [OutgoingMessage.NewMessage dm.2.toChatMessage], [],
        .continueLoop⟩

/-- The `"edit_message"` handler (chat.rs:444-493).  The ownership query
`SELECT EXISTS(... WHERE id = $1 AND username = $2)` is executed but its
boolean is discarded: the `Ok(_)` arm matches both `true` and `false`,
so the `UPDATE` runs for any caller.  The row is then re-fetched: found
rows are published as `EditMessage`, a missing row yields the
caller-only error frame. -/
def handle_edit_message (username : String) (p : EditMessage) (db : Db)
    (reg : Registry) : ChatStep :=
  let _ownership := db.messages.any (fun m =>
    m.id == p.message_id && m.username == username)
  let db1 : Db := { db with messages := db.messages.map (fun m =>
      if m.id == p.message_id then { m with message := p.message, edited := true }
      else m) }
  match findMessageById db1 p.message_id with
  | some m => ⟨db1, reg, [OutgoingMessage.EditMessage m.toChatMessage], [],
      .continueLoop⟩
  | none => ⟨db1, reg, [], ["Error sending message"], .continueLoop⟩

/-- The `"change_bio"` handler (chat.rs:494-541). -/
def handle_change_bio (username : String) (p : ChangeBio) (db : Db)
    (reg : Registry) : ChatStep :=
  match p.biography with
  | none => ⟨db, reg, [], [], .continueLoop⟩
  | some bio =>
    let db1 : Db := { db with users := db.users.map (fun u =>
      if u.username == username then { u with biography := some bio } else u) }
    match db1.users.find? (fun u => u.username == username) with
    | some u => ⟨db1, reg, [OutgoingMessage.ChangeBio ⟨u.username, u.biography⟩],
        [], .continueLoop⟩
    | none => ⟨db1, reg, [], ["Error sending message"], .continueLoop⟩

/-- The `"new_chat"` handler (chat.rs:542-614).  The friendship existence
check gates creation; both rejection paths (`You can\x27t create chat`,
`Chat already exists`) send a caller-only error frame and then `return`,
exiting the inbound read loop.  On success the chat row is inserted
(trigger canonicalizes the pair), the cached memberships
of both participants are refreshed, and `NewChat` is published. -/
def handle_new_chat (username : String) (p : NewChat) (db : Db)
    (reg : Registry) (now : Nat) : ChatStep :=
  match p.second_user_name with
  | none => ⟨db, reg, [], [], .continueLoop⟩
  | some second =>
    let can_create_chat := friendshipExists db username second
    if can_create_chat == false then
      ⟨db, reg, [], ["You can\x27t create chat"], .stop⟩
    else if chatPairExists db username second then
      ⟨db, reg, [], ["Chat already exists"], .stop⟩
    else
      let dc := insertChat db username second now
      let reg1 := update_user_chats dc.1 reg username
      let reg2 := update_user_chats dc.1 reg1 second
      ⟨dc.1, reg2, [OutgoingMessage.NewChat dc.2], [], .continueLoop⟩

/-- The `"delete_message"` handler (chat.rs:615-653).  A missing row
yields `Message not found` and the loop continues; a row not authored by
the caller yields the authorization error frame and `break`s out of the
read loop; otherwise the row is deleted and `Delete` published. -/
def handle_delete_message (username : String) (p : DeleteMessageRequest)
    (db : Db) (reg : Registry) : ChatStep :=
  match findMessageById db p.id with
  | some m =>
    if m.username != username then
      ⟨db, reg, [], ["You can only delete your own messages"], .stop⟩
    else
      ⟨{ db with messages := db.messages.filter (fun r => !(r.id == p.id)) },
        reg, [OutgoingMessage.Delete p.id], [], .continueLoop⟩
  | none => ⟨db, reg, [], ["Message not found"], .continueLoop⟩

/-- Outcome of deserializing the `payload` value of one envelope: which
typed payload (if any) `serde_json::from_value` yields for the action
that is tried on it. -/
inductive PayloadParse
  | pNewMessage (p : NewMessage)
  | pEditMessage (p : EditMessage)
  | pChangeBio (p : ChangeBio)
  | pNewChat (p : NewChat)
  | pDelete (p : DeleteMessageRequest)
  | pFriendRequest (p : FriendRequestPayload)
  | pFriendId (friend_id : Int)
  | pOther
deriving DecidableEq

/-- One inbound text frame after envelope parsing: either the
`WebSocketMessage` envelope failed to parse, or it parsed into an
`action` string and a payload value. -/
inductive InboundFrame
  | malformedEnvelope
  | frame (action : String) (payload : PayloadParse)
deriving DecidableEq

/-- The chat-domain inbound dispatch (chat.rs:240-681): string match on
`action`; a malformed envelope is logged and ignored with no error
frame; a payload that fails to deserialize for its action is silently
ignored; an unknown action sends the `Unknown action` error frame and
keeps reading. -/
def handleChatFrame (username email : String) (f : InboundFrame) (db : Db)
    (reg : Registry) (now : Nat) : ChatStep :=
  match f with
  | .malformedEnvelope => ⟨db, reg, [], [], .continueLoop⟩
  | .frame action payload =>
    if action == "new_message" then
      match payload with
      | .pNewMessage p => handle_new_message username email p db reg now
      | _ => ⟨db, reg, [], [], .continueLoop⟩
    else if action == "edit_message" then
      match payload with
      | .pEditMessage p => handle_edit_message username p db reg
      | _ => ⟨db, reg, [], [], .continueLoop⟩
    else if action == "change_bio" then
      match payload with
      | .pChangeBio p => handle_change_bio username p db reg
      | _ => ⟨db, reg, [], [], .continueLoop⟩
    else if action == "new_chat" then
      match payload with
      | .pNewChat p => handle_new_chat username p db reg now
      | _ => ⟨db, reg, [], [], .continueLoop⟩
    else if action == "delete_message" then
      match payload with
      | .pDelete p => handle_delete_message username p db reg
      | _ => ⟨db, reg, [], [], .continueLoop⟩
    else ⟨db, reg, [], ["Unknown action"], .continueLoop⟩

/-- Result of processing one inbound friend-domain frame. -/
structure FriendStep where
  db : Db
  published : List FriendAction
  errors : List String
  control : LoopControl
deriving DecidableEq

/-- `INSERT INTO friends (sender_username, receiver_username, status)
VALUES ($1, $2, `pending`) RETURNING *` (friend.rs:227-233). -/
def insertFriend (db : Db) (s r status : String) : Db × FriendRow :=
  let f : FriendRow :=
    { id := db.nextFriendId, sender_username := s,
      receiver_username := r, status := status }
  ({ db with
       friends := db.friends ++ [f]
       nextFriendId := db.nextFriendId + 1 }, f)

/-- The `"send_request"` handler (friend.rs:128-251): rejects (with a
caller-only error frame and `return`) a self-request, an existing
friendship row in either direction, and an unknown receiver, in that
order; otherwise inserts a `pending` row and publishes `SendRequest`. -/
def handle_send_request (username : String) (p : FriendRequestPayload)
    (db : Db) : FriendStep :=
  let user_exists := userExists db p.receiver_username
  let already_sent := friendshipExists db username p.receiver_username
  let send_to_itself := username == p.receiver_username
  if send_to_itself then
    ⟨db, [], ["Cannot send friend request to yourself"], .stop⟩
  else if already_sent then
    ⟨db, [], ["Friend request already sent or received"], .stop⟩
  else if !user_exists then
    ⟨db, [], ["User not found"], .stop⟩
  else
    let df := insertFriend db username p.receiver_username "pending"
    ⟨df.1, [FriendAction.SendRequest df.2], [], .continueLoop⟩

/-- The `"accept"` handler (friend.rs:253-338): `is_receiver` is the
existence check `id = $1 AND receiver_username = $2` for the caller;
the sender is fetched (`fetch_one`, failing with a caller-only error and
`return` when the row is missing); a caller who is not the receiver gets
the rejection error frame and `return`, leaving the row untouched;
otherwise `UPDATE friends SET status = accepted WHERE id = $1` runs
and `Accept {id, sender, receiver := caller, "accepted"}` is published. -/
def handle_accept (username : String) (friend_id : Int) (db : Db) : FriendStep :=
  let is_receiver := db.friends.any (fun f =>
    f.id == friend_id && f.receiver_username == username)
  match (findFriendById db friend_id).map (fun f => f.sender_username) with
  | none => ⟨db, [], ["Failed to get sender"], .stop⟩
  | some sender =>
    if !is_receiver then
      ⟨db, [], ["You can\x27t accept your self friend request"], .stop⟩
    else
      let db1 : Db := { db with friends := db.friends.map (fun f =>
        if f.id == friend_id then { f with status := "accepted" } else f) }
      match findFriendById db1 friend_id with
      | some fr => ⟨db1, [FriendAction.Accept
          ⟨fr.id, sender, username, "accepted"⟩], [], .continueLoop⟩
      | none => ⟨db1, [], ["Failed to accept friend request"], .continueLoop⟩

/-- The friend-domain inbound dispatch (friend.rs:122-360): an unknown
action is only logged (`eprintln`) — no error frame is written and the
loop keeps reading; an `accept` payload without a numeric `friend_id`
is silently ignored. -/
def handleFriendFrame (username : String) (f : InboundFrame) (db : Db) :
    FriendStep :=
  match f with
  | .malformedEnvelope => ⟨db, [], [], .continueLoop⟩
  | .frame action payload =>
    if action == "send_request" then
      match payload with
      | .pFriendRequest p => handle_send_request username p db
      | _ => ⟨db, [], [], .continueLoop⟩
    else if action == "accept" then
      match payload with
      | .pFriendId fid => handle_accept username fid db
      | _ => ⟨db, [], [], .continueLoop⟩
    else ⟨db, [], [], .continueLoop⟩

/-- The chat-domain outbound visibility decision (chat.rs:710-763),
computed against the cached `user_chats` of the subscriber and, for the
message events, falling back to a store lookup that binds
`broadcast_email` — the e-mail of the session — into the username columns of
`chats`.  `NewChat` likewise compares the two username columns against
`broadcast_email`; `ChangeBio` compares against `broadcast_username`. -/
def should_send (msg : OutgoingMessage) (current_user_chats : List Int)
    (broadcast_email broadcast_username : String) (db : Db) : Bool :=
  match msg with
  | .NewMessage m =>
    match m.chat_id with
    | some cid =>
      if current_user_chats.contains cid then true
      else chatMembershipExists db cid broadcast_email
    | none => false
  | .Delete _ => true
  | .NewChat c =>
    c.first_user_name == broadcast_email || c.second_user_name == broadcast_email
  | .EditMessage m =>
    match m.chat_id with
    | some cid =>
      if current_user_chats.contains cid then true
      else chatMembershipExists db cid broadcast_email
    | none => false
  | .ChangeBio b => b.username == broadcast_username

/-- What the `select!` of the outbound loop can observe in one step: a bus
event, the bus subscription ending (`Err` on `recv`), or the watchdog
arm completing (which its inner loop does exactly when the registry no
longer holds the session key). -/
inductive OutboundInput (ε : Type)
  | busEvent (m : ε)
  | busClosed
  | watchdogTick
deriving DecidableEq

/-- One iteration of the chat-domain outbound loop (chat.rs:683-794):
returns whether `session_alive` stays true and the event written to the
socket, if any.  On a bus event the loop first re-checks registry
presence under `broadcast_email` (terminating when absent), re-reads the
cached chats of the session, and filters through `should_send`.  The
watchdog arm (chat.rs:780-791) polls every second and fires exactly
when `broadcast_email` is no longer a registry key, setting
`session_alive = false`. -/
def chatOutboundStep (reg : Registry) (db : Db)
    (broadcast_email broadcast_username : String) :
    OutboundInput OutgoingMessage → Bool × Option OutgoingMessage
  | .watchdogTick =>
    if registryContains reg broadcast_email then (true, none) else (false, none)
  | .busClosed => (false, none)
  | .busEvent m =>
    if !(registryContains reg broadcast_email) then (false, none)
    else
      match registryLookup reg broadcast_email with
      | none => (true, none)
      | some s =>
        if should_send m s.user_chats broadcast_email broadcast_username db
        then (true, some m) else (true, none)

/-- The friend-domain outbound visibility decision (friend.rs:381-399),
which uses the captured `broadcast_session_username`. -/
def friend_should_send (msg : FriendAction)
    (broadcast_session_username : String) (db : Db) : Bool :=
  match msg with
  | .SendRequest f =>
    broadcast_session_username == f.receiver_username ||
    broadcast_session_username == f.sender_username
  | .Accept s =>
    (db.friends.find? (fun f => f.id == s.id &&
      (f.sender_username == broadcast_session_username ||
       f.receiver_username == broadcast_session_username))).isSome

/-- One iteration of the friend-domain outbound loop (friend.rs:363-430),
with the same registry-presence gate and one-second watchdog arm
(friend.rs:416-427) keyed by `broadcast_email`. -/
def friendOutboundStep (reg : Registry) (db : Db)
    (broadcast_email broadcast_session_username : String) :
    OutboundInput FriendAction → Bool × Option FriendAction
  | .watchdogTick =>
    if registryContains reg broadcast_email then (true, none) else (false, none)
  | .busClosed => (false, none)
  | .busEvent m =>
    if !(registryContains reg broadcast_email) then (false, none)
    else if friend_should_send m broadcast_session_username db
    then (true, some m) else (true, none)

/-- The watchdog poll interval, from `Duration::from_secs(1)`
(chat.rs:781, friend.rs:417). -/
def watchdogTickIntervalSecs : Nat := 1

end Kutter

namespace Kutter

/-! Helper lemmas shared by the claim theorems. -/

/-- No two rows of the `friends` table share an id (the column is
`SERIAL PRIMARY KEY`). -/
def nodupFriendIds : List FriendRow → Bool
  | [] => true
  | f :: fs => (!(fs.any (fun g => g.id == f.id))) && nodupFriendIds fs

/-! Concrete stores, registries and rows used to evaluate the model at
specific inputs. -/

/-- Store with one chat (id 1) between `amy` and `bob` and one message in
it, where the chat id is absent from the cached membership of the
connected session of amy (the chat was created after her cache was last
refreshed). -/
def c1db : Db :=
  { users := [⟨"amy", "amy@example.com", none⟩, ⟨"bob", "bob@example.com", none⟩],
    chats := [⟨1, "amy", "bob", 0⟩],
    messages := [⟨5, 1, "bob@example.com", "bob", "hi", none, none, 0, false⟩],
    friends := [], nextChatId := 2, nextMessageId := 6, nextFriendId := 1 }

/-- Registry holding the session of amy under her e-mail key, with an
empty cached membership. -/
def c1reg : Registry := [("amy@example.com", ⟨"amy@example.com", "amy", []⟩)]

/-- The `NewMessage` event payload for the message of chat 1. -/
def c1msg : ChatMessage := ⟨some 5, some 1, "bob", "hi", none, none, 0, false⟩

/-- Store with an accepted friendship and a chat between `amy` and `bob`. -/
def c2db : Db :=
  { users := [⟨"amy", "amy@example.com", none⟩, ⟨"bob", "bob@example.com", none⟩],
    chats := [⟨1, "amy", "bob", 0⟩], messages := [],
    friends := [⟨1, "amy", "bob", "accepted"⟩],
    nextChatId := 2, nextMessageId := 1, nextFriendId := 2 }

/-- Registry holding the session of amy, which even has chat 1 cached. -/
def c2reg : Registry := [("amy@example.com", ⟨"amy@example.com", "amy", [1]⟩)]

/-- The chat row carried by the published `NewChat` event. -/
def c2chat : Chat := ⟨1, "amy", "bob", 0⟩

/-- Store with one message (id 5, chat 1) authored by `bob`. -/
def c3db : Db :=
  { users := [⟨"amy", "amy@example.com", none⟩, ⟨"bob", "bob@example.com", none⟩],
    chats := [⟨1, "amy", "bob", 0⟩],
    messages := [⟨5, 1, "bob@example.com", "bob", "original", none, none, 0, false⟩],
    friends := [], nextChatId := 2, nextMessageId := 6, nextFriendId := 1 }

/-- Store with users `amy` and `bob` and no friendship rows at all. -/
def c4db : Db :=
  { users := [⟨"amy", "amy@example.com", none⟩, ⟨"bob", "bob@example.com", none⟩],
    chats := [], messages := [], friends := [],
    nextChatId := 1, nextMessageId := 1, nextFriendId := 1 }

/-- Store with one pending friend request, id 1, from `amy` to `bob`. -/
def c5db : Db :=
  { users := [⟨"amy", "amy@example.com", none⟩, ⟨"bob", "bob@example.com", none⟩],
    chats := [], messages := [],
    friends := [⟨1, "amy", "bob", "pending"⟩],
    nextChatId := 1, nextMessageId := 1, nextFriendId := 2 }

/-- The pending friendship row of `c5db`. -/
def c5row : FriendRow := ⟨1, "amy", "bob", "pending"⟩

/-- Store with users `amy` and `bob`, no friendship and no chat. -/
def c6db : Db :=
  { users := [⟨"amy", "amy@example.com", none⟩, ⟨"bob", "bob@example.com", none⟩],
    chats := [], messages := [], friends := [],
    nextChatId := 1, nextMessageId := 1, nextFriendId := 1 }

/-- Store with a pending friendship row from `amy` to `bob`. -/
def c6dbPending : Db :=
  { users := [⟨"amy", "amy@example.com", none⟩, ⟨"bob", "bob@example.com", none⟩],
    chats := [], messages := [],
    friends := [⟨1, "amy", "bob", "pending"⟩],
    nextChatId := 1, nextMessageId := 1, nextFriendId := 2 }

/-- Store with chats 1 (`amy`/`bob`) and 2 (`amy`/`carol`) and a message
(id 10) living in chat 2. -/
def c7db : Db :=
  { users := [⟨"amy", "amy@example.com", none⟩, ⟨"bob", "bob@example.com", none⟩,
              ⟨"carol", "carol@example.com", none⟩],
    chats := [⟨1, "amy", "bob", 0⟩, ⟨2, "amy", "carol", 0⟩],
    messages := [⟨10, 2, "carol@example.com", "carol", "hey", none, none, 0, false⟩],
    friends := [], nextChatId := 3, nextMessageId := 11, nextFriendId := 1 }

/-- The chat row of chat 1 in `c7db`. -/
def c7chat : Chat := ⟨1, "amy", "bob", 0⟩

/-- The replied-to message row of `c7db` (it lives in chat 2). -/
def c7msg : MessageRow := ⟨10, 2, "carol@example.com", "carol", "hey", none, none, 0, false⟩

/-- An arbitrary empty store. -/
def c8db : Db := ⟨[], [], [], [], 1, 1, 1⟩

/-- Another empty store, for the canonicalization witness. -/
def c9db : Db := ⟨[], [], [], [], 1, 1, 1⟩

/-- `find?` commutes with a map that preserves the search predicate. -/
theorem find?_map_pres {α : Type} (p : α → Bool) (g : α → α)
    (hg : ∀ x, p (g x) = p x) :
    ∀ (xs : List α) (a : α), xs.find? p = some a →
      (xs.map g).find? p = some (g a) := by
  intro xs
  induction xs with
  | nil => intro a h; simp [List.find?] at h
  | cons x xs ih =>
    intro a h
    cases hpx : p x with
    | true =>
      rw [List.find?_cons_of_pos _ hpx] at h
      injection h with h
      subst h
      rw [List.map_cons, List.find?_cons_of_pos _ (by rw [hg, hpx])]
    | false =>
      rw [List.find?_cons_of_neg _ (by simp [hpx])] at h
      rw [List.map_cons, List.find?_cons_of_neg _ (by simp [hg, hpx])]
      exact ih a h

/-- Weakening a conjunctive predicate under a failing `any`. -/
theorem any_and_false {α : Type} (p q : α → Bool) :
    ∀ (l : List α), l.any p = false →
      l.any (fun x => p x && q x) = false := by
  intro l
  induction l with
  | nil => intro _; rfl
  | cons x xs ih =>
    intro h
    rw [List.any_cons] at h
    rcases Bool.or_eq_false_iff.mp h with ⟨h1, h2⟩
    rw [List.any_cons, Bool.or_eq_false_iff]
    exact ⟨by rw [h1]; rfl, ih h2⟩

/-- Under unique ids, when the row found for an id fails a column test,
no row passes the id test conjoined with that column test. -/
theorem find?_unique_receiver :
    ∀ (l : List FriendRow) (fid : Int) (row : FriendRow) (u : String),
      nodupFriendIds l = true →
      l.find? (fun f => f.id == fid) = some row →
      (row.receiver_username == u) = false →
      l.any (fun f => f.id == fid && f.receiver_username == u) = false := by
  intro l
  induction l with
  | nil => intro fid row u _ h _; simp [List.find?] at h
  | cons f fs ih =>
    intro fid row u hnd hfind hrec
    have hnd' : fs.any (fun g => g.id == f.id) = false ∧ nodupFriendIds fs = true := by
      have := hnd
      simp only [nodupFriendIds, Bool.and_eq_true, Bool.not_eq_true'] at this
      exact this
    cases hf : (f.id == fid) with
    | true =>
      simp only [List.find?_cons, hf] at hfind
      have hfr : f = row := by injection hfind
      subst hfr
      simp only [List.any_cons, Bool.or_eq_false_iff]
      constructor
      · simp [hf, hrec]
      · have hfe : f.id = fid := by simpa using hf
        have hkey : fs.any (fun g => g.id == fid) = false := by
          rw [← hfe]; exact hnd'.1
        exact any_and_false _ _ fs hkey
    | false =>
      simp only [List.find?_cons, hf] at hfind
      simp only [List.any_cons, Bool.or_eq_false_iff]
      constructor
      · simp [hf]
      · exact ih fid row u hnd'.2 hfind hrec

/-- Strict asymmetry of the lexicographic character-list order. -/
theorem charListLt_asymm :
    ∀ (a b : List Char), charListLt a b = true → charListLt b a = false := by
  intro a
  induction a with
  | nil =>
    intro b h
    cases b with
    | nil => simp [charListLt] at h
    | cons x xs => simp [charListLt]
  | cons x xs ih =>
    intro b h
    cases b with
    | nil => simp [charListLt] at h
    | cons y ys =>
      by_cases h1 : x.toNat < y.toNat
      · have h2 : ¬ y.toNat < x.toNat := by omega
        simp [charListLt, h1, h2]
      · by_cases h2 : y.toNat < x.toNat
        · simp [charListLt, h1, h2] at h
        · simp only [charListLt, if_neg h1, if_neg h2] at h
          simp only [charListLt, if_neg h2, if_neg h1]
          exact ih ys h

/-- Asymmetry of the modelled SQL varchar order. -/
theorem strLt_asymm (s t : String) (h : strLt s t = true) : strLt t s = false :=
  charListLt_asymm s.data t.data h

/-! Claim theorems. -/

/-- Claim C1, evaluated at the failing input: chat 1 has participants
`amy` and `bob`; amy is connected (registry key `amy@example.com`,
username `amy`) with chat 1 absent from her cached membership.  The
outbound loop does NOT write the published `NewMessage` for chat 1 to
her socket, because the store fallback (chat.rs:716-721) binds
`broadcast_email` — the e-mail — into the username columns of `chats`,
even though amy is a participant of chat 1 by the store membership
check itself; the claim says the fallback makes every connected
participant receive the event. -/
theorem c1_newMessage_fallback_misses_participant :
    chatOutboundStep c1reg c1db "amy@example.com" "amy"
      (.busEvent (.NewMessage c1msg)) = (true, none)
  ∧ chatMembershipExists c1db 1 "amy" = true
  ∧ chatMembershipExists c1db 1 "amy@example.com" = false := by decide

/-- Claim C2, evaluated at the failing input: the `NewChat` event for the
chat with named participants `amy` and `bob` is NOT written to the
connected session of amy, because the visibility test (chat.rs:732-735)
compares `first_user_name`/`second_user_name` against `broadcast_email`
rather than the username; the claim says the event is written exactly to
the two named participants. -/
theorem c2_newChat_not_delivered_to_named_participant :
    chatOutboundStep c2reg c2db "amy@example.com" "amy"
      (.busEvent (.NewChat c2chat)) = (true, none)
  ∧ c2chat.first_user_name = "amy" := by decide

/-- Claim C3 counterexample: caller `amy` edits message 5 authored by
`bob`.  Contrary to the claim, the mutation is attempted and succeeds:
the row text becomes `hacked` and its edited flag is set, an
`EditMessage` event is published, and no error frame is sent. -/
theorem c3_nonauthor_edit_counterexample :
    handle_edit_message "amy" ⟨5, "hacked"⟩ c3db [] =
      ⟨{ c3db with
           messages := [⟨5, 1, "bob@example.com", "bob", "hacked", none, none, 0, true⟩] },
        [],
        [OutgoingMessage.EditMessage ⟨some 5, some 1, "bob", "hacked", none, none, 0, true⟩],
        [], .continueLoop⟩
  ∧ (⟨5, 1, "bob@example.com", "bob", "original", none, none, 0, false⟩ : MessageRow) ∈ c3db.messages
  ∧ "amy" ≠ "bob" := by decide

/-- Claim C3 (amended): `edit_message` does not enforce authorship.  The
ownership check runs but its result is discarded, so for any caller —
author or not — an edit of an existing message id updates the text,
sets the edited flag, publishes `EditMessage`, and sends no error
frame. -/
theorem c3_amended_edit_ignores_authorship
    (db : Db) (reg : Registry) (username : String) (p : EditMessage) (m : MessageRow)
    (hfind : findMessageById db p.message_id = some m) :
    handle_edit_message username p db reg =
      ⟨{ db with
           messages := db.messages.map (fun r =>
             if r.id == p.message_id then
               { r with message := p.message, edited := true }
             else r) },
        reg,
        [OutgoingMessage.EditMessage (MessageRow.toChatMessage
           { m with message := p.message, edited := true })],
        [], .continueLoop⟩ := by
  have hfind' : db.messages.find? (fun r => r.id == p.message_id) = some m := hfind
  have hm : (m.id == p.message_id) = true := by
    have h2 := List.find?_some hfind'
    simpa using h2
  have hmap := find?_map_pres (fun r : MessageRow => r.id == p.message_id)
    (fun r => if r.id == p.message_id then
        { r with message := p.message, edited := true } else r)
    (fun x => by cases hx : (x.id == p.message_id) <;> simp [hx])
    db.messages m hfind'
  simp only [hm, if_pos] at hmap
  have hscrut : findMessageById
      { db with
          messages := db.messages.map (fun r =>
            if r.id == p.message_id then
              { r with message := p.message, edited := true }
            else r) }
      p.message_id
      = some { m with message := p.message, edited := true } := hmap
  simp only [handle_edit_message]
  rw [hscrut]

/-- Claim C3 amended, witness: `amy` edits message 5 of `bob` in the
concrete store. -/
theorem c3_amended_witness :
    findMessageById c3db 5 =
      some ⟨5, 1, "bob@example.com", "bob", "original", none, none, 0, false⟩
  ∧ handle_edit_message "amy" ⟨5, "hacked"⟩ c3db [] =
      ⟨{ c3db with
           messages := c3db.messages.map (fun r =>
             if r.id == (5 : Int) then { r with message := "hacked", edited := true }
             else r) },
        [],
        [OutgoingMessage.EditMessage (MessageRow.toChatMessage
           ⟨5, 1, "bob@example.com", "bob", "hacked", none, none, 0, true⟩)],
        [], .continueLoop⟩ :=
  ⟨by decide,
   c3_amended_edit_ignores_authorship c3db [] "amy" ⟨5, "hacked"⟩
     ⟨5, 1, "bob@example.com", "bob", "original", none, none, 0, false⟩ (by decide)⟩

/-- Claim C4 counterexample: the frame `new_chat{bob}` from `amy`, with
no friendship row in the store, produces a caller-only error frame — but
the handler then `return`s, so the inbound loop does NOT continue
reading subsequent frames, contrary to the claim. -/
theorem c4_error_frame_stops_loop_counterexample :
    handleChatFrame "amy" "amy@example.com"
      (.frame "new_chat" (.pNewChat ⟨some "bob"⟩)) c4db [] 0
      = ⟨c4db, [], [], ["You can\x27t create chat"], .stop⟩ := by decide

/-- Claim C4 (amended): error frames go only to the originating
connection, but the loop does not always keep reading and an error frame
is not always produced: an unrecognized chat-domain action yields a
caller-only `Unknown action` frame and the loop continues; an
unrecognized friend-domain action yields no error frame at all (the
loop continues); the `new_chat` missing-friendship rejection yields a
caller-only error frame but terminates the inbound loop; and a
malformed envelope yields no error frame. -/
theorem c4_amended_error_frames :
    (∀ (db : Db) (reg : Registry) (username email : String) (now : Nat)
       (action : String) (payload : PayloadParse),
       (action == "new_message") = false → (action == "edit_message") = false →
       (action == "change_bio") = false → (action == "new_chat") = false →
       (action == "delete_message") = false →
       handleChatFrame username email (.frame action payload) db reg now
         = ⟨db, reg, [], ["Unknown action"], .continueLoop⟩)
  ∧ (∀ (db : Db) (username action : String) (payload : PayloadParse),
       (action == "send_request") = false → (action == "accept") = false →
       handleFriendFrame username (.frame action payload) db
         = ⟨db, [], [], .continueLoop⟩)
  ∧ (∀ (db : Db) (reg : Registry) (username email second : String) (now : Nat),
       friendshipExists db username second = false →
       handleChatFrame username email
         (.frame "new_chat" (.pNewChat ⟨some second⟩)) db reg now
         = ⟨db, reg, [], ["You can\x27t create chat"], .stop⟩)
  ∧ (∀ (db : Db) (reg : Registry) (username email : String) (now : Nat),
       handleChatFrame username email .malformedEnvelope db reg now
         = ⟨db, reg, [], [], .continueLoop⟩) := by
  refine ⟨?_, ?_, ?_, ?_⟩
  · intro db reg username email now action payload h1 h2 h3 h4 h5
    simp [handleChatFrame, h1, h2, h3, h4, h5]
  · intro db username action payload h1 h2
    simp [handleFriendFrame, h1, h2]
  · intro db reg username email second now h
    have e1 : ("new_chat" == "new_message") = false := by decide
    have e2 : ("new_chat" == "edit_message") = false := by decide
    have e3 : ("new_chat" == "change_bio") = false := by decide
    have e4 : ("new_chat" == "new_chat") = true := by decide
    simp [handleChatFrame, handle_new_chat, e1, e2, e3, e4, h]
  · intro db reg username email now
    simp [handleChatFrame]

/-- Claim C4 amended, witness at concrete inputs: an unknown chat action,
an unknown friend action, and a friendship-less `new_chat`. -/
theorem c4_amended_witness :
    ("bogus" == "new_message") = false
  ∧ friendshipExists c4db "amy" "bob" = false
  ∧ handleChatFrame "amy" "amy@example.com" (.frame "bogus" .pOther) c4db [] 0
      = ⟨c4db, [], [], ["Unknown action"], .continueLoop⟩
  ∧ handleFriendFrame "amy" (.frame "bogus" .pOther) c4db
      = ⟨c4db, [], [], .continueLoop⟩
  ∧ handleChatFrame "amy" "amy@example.com"
      (.frame "new_chat" (.pNewChat ⟨some "bob"⟩)) c4db [] 0
      = ⟨c4db, [], [], ["You can\x27t create chat"], .stop⟩ :=
  ⟨by decide, by decide,
   c4_amended_error_frames.1 c4db [] "amy" "amy@example.com" 0 "bogus" .pOther
     (by decide) (by decide) (by decide) (by decide) (by decide),
   c4_amended_error_frames.2.1 c4db "amy" "bogus" .pOther (by decide) (by decide),
   c4_amended_error_frames.2.2.1 c4db [] "amy" "amy@example.com" "bob" 0 (by decide)⟩

/-- Claim C5: for an existing friendship row (ids unique, as for a
`SERIAL PRIMARY KEY` column), `accept{friendId}` invoked by the
receiver_username of the row sets its status to `accepted` and publishes
`FriendRequestAccepted`; invoked by any other identity it is rejected
with a caller-only error frame and the store is unchanged. -/
theorem c5_accept_requires_receiver
    (db : Db) (username : String) (fid : Int) (row : FriendRow)
    (hnd : nodupFriendIds db.friends = true)
    (hfind : findFriendById db fid = some row) :
    (row.receiver_username = username →
       handle_accept username fid db =
         ⟨{ db with
              friends := db.friends.map (fun f =>
                if f.id == fid then { f with status := "accepted" } else f) },
           [FriendAction.Accept ⟨row.id, row.sender_username, username, "accepted"⟩],
           [], .continueLoop⟩)
  ∧ (row.receiver_username ≠ username →
       handle_accept username fid db =
         ⟨db, [], ["You can\x27t accept your self friend request"], .stop⟩) := by
  have hfind' : db.friends.find? (fun f => f.id == fid) = some row := hfind
  have hid : (row.id == fid) = true := by
    have h2 := List.find?_some hfind'
    simpa using h2
  constructor
  · intro hrec
    have hmem : row ∈ db.friends := List.mem_of_find?_eq_some hfind'
    have hrecv : db.friends.any
        (fun f => f.id == fid && f.receiver_username == username) = true :=
      List.any_eq_true.mpr ⟨row, hmem, by simp [hid, hrec]⟩
    have hmap := find?_map_pres (fun f : FriendRow => f.id == fid)
      (fun f => if f.id == fid then { f with status := "accepted" } else f)
      (fun x => by cases hx : (x.id == fid) <;> simp [hx])
      db.friends row hfind'
    simp only [hid, if_pos] at hmap
    have hscrut : findFriendById
        { db with
            friends := db.friends.map (fun f =>
              if f.id == fid then { f with status := "accepted" } else f) } fid
        = some { row with status := "accepted" } := hmap
    simp only [handle_accept]
    rw [hfind, hscrut, hrecv]
    simp
  · intro hrec
    have hrecb : (row.receiver_username == username) = false := by
      simp [hrec]
    have hany := find?_unique_receiver db.friends fid row username hnd hfind' hrecb
    simp only [handle_accept]
    rw [hfind, hany]
    simp

/-- Claim C5, witness: in the store with the pending request 1 from
`amy` to `bob`, acceptance by `bob` succeeds and acceptance by `amy`
(the sender) is rejected leaving the row unchanged. -/
theorem c5_accept_witness :
    nodupFriendIds c5db.friends = true
  ∧ findFriendById c5db 1 = some c5row
  ∧ c5row.receiver_username = "bob"
  ∧ c5row.receiver_username ≠ "amy"
  ∧ handle_accept "bob" 1 c5db =
      ⟨{ c5db with
           friends := c5db.friends.map (fun f =>
             if f.id == (1 : Int) then { f with status := "accepted" } else f) },
        [FriendAction.Accept ⟨c5row.id, c5row.sender_username, "bob", "accepted"⟩],
        [], .continueLoop⟩
  ∧ handle_accept "amy" 1 c5db =
      ⟨c5db, [], ["You can\x27t accept your self friend request"], .stop⟩ :=
  ⟨by decide, by decide, by decide, by decide,
   (c5_accept_requires_receiver c5db "bob" 1 c5row (by decide) (by decide)).1 (by decide),
   (c5_accept_requires_receiver c5db "amy" 1 c5row (by decide) (by decide)).2 (by decide)⟩

/-- Claim C6: `new_chat` is rejected — no chat row inserted, no `NewChat`
published, caller-only error frame — when no friendship row exists
between caller and target in either direction; the check is
existence-only (any row between the pair passes it, whatever its
status); and it is also rejected when a chat for the pair already
exists. -/
theorem c6_new_chat_requires_friendship :
    (∀ (db : Db) (reg : Registry) (username second : String) (now : Nat),
       friendshipExists db username second = false →
       handle_new_chat username ⟨some second⟩ db reg now
         = ⟨db, reg, [], ["You can\x27t create chat"], .stop⟩)
  ∧ (∀ (db : Db) (reg : Registry) (username second : String) (now : Nat),
       friendshipExists db username second = true →
       chatPairExists db username second = true →
       handle_new_chat username ⟨some second⟩ db reg now
         = ⟨db, reg, [], ["Chat already exists"], .stop⟩)
  ∧ (∀ (db : Db) (username second : String) (f : FriendRow),
       f ∈ db.friends → f.sender_username = username →
       f.receiver_username = second →
       friendshipExists db username second = true) := by
  refine ⟨?_, ?_, ?_⟩
  · intro db reg username second now h
    simp [handle_new_chat, h]
  · intro db reg username second now h1 h2
    simp [handle_new_chat, h1, h2]
  · intro db username second f hmem hs hr
    exact List.any_eq_true.mpr ⟨f, hmem, by simp [hs, hr]⟩

/-- Claim C6, witness: with no friendship between `amy` and `bob` the
command is rejected; and a `pending` row already passes the existence
check. -/
theorem c6_new_chat_witness :
    friendshipExists c6db "amy" "bob" = false
  ∧ handle_new_chat "amy" ⟨some "bob"⟩ c6db [] 0
      = ⟨c6db, [], [], ["You can\x27t create chat"], .stop⟩
  ∧ (⟨1, "amy", "bob", "pending"⟩ : FriendRow) ∈ c6dbPending.friends
  ∧ friendshipExists c6dbPending "amy" "bob" = true :=
  ⟨by decide,
   c6_new_chat_requires_friendship.1 c6db [] "amy" "bob" 0 (by decide),
   by decide,
   c6_new_chat_requires_friendship.2.2 c6dbPending "amy" "bob"
     ⟨1, "amy", "bob", "pending"⟩ (by decide) rfl rfl⟩

/-- Claim C7: a `new_message` whose `reply` targets a message of a
different chat than the (existing) target chat is rejected: the store is
unchanged (no message row, no `last_update` bump), nothing is published,
and the caller alone receives the cross-chat error frame; the inbound
loop keeps reading. -/
theorem c7_cross_chat_reply_rejected
    (db : Db) (reg : Registry) (username email text partner : String)
    (rid : Int) (c : Chat) (rmsg : MessageRow) (now : Nat)
    (hchat : findChatByPair db username partner = some c)
    (hmsg : findMessageById db rid = some rmsg)
    (hne : rmsg.chat_id ≠ c.id) :
    handle_new_message username email ⟨text, some partner, some rid⟩ db reg now
      = ⟨db, reg, [], ["You can not reply a message from other chat"],
          .continueLoop⟩ := by
  have hbeq : (rmsg.chat_id == c.id) = false := by simp [hne]
  simp [handle_new_message, hchat, hmsg, hbeq]

/-- Claim C7, witness: `amy` replies into chat 1 (with `bob`) to message
10, which lives in chat 2. -/
theorem c7_cross_chat_reply_witness :
    findChatByPair c7db "amy" "bob" = some c7chat
  ∧ findMessageById c7db 10 = some c7msg
  ∧ c7msg.chat_id ≠ c7chat.id
  ∧ handle_new_message "amy" "amy@example.com" ⟨"hi", some "bob", some 10⟩ c7db [] 9
      = ⟨c7db, [], [], ["You can not reply a message from other chat"],
          .continueLoop⟩ :=
  ⟨by decide, by decide, by decide,
   c7_cross_chat_reply_rejected c7db [] "amy" "amy@example.com" "hi" "bob" 10
     c7chat c7msg 9 (by decide) (by decide) (by decide)⟩

/-- Claim C8: once the session key is absent from the registry, one
outbound-loop step — whatever the `select!` observes: a bus event, the
bus closing, or the watchdog tick arm, which polls registry presence
under the own identity key of the connection — delivers nothing and
terminates the loop (`session_alive` becomes false), in both the chat
and the friend domain. -/
theorem c8_outbound_stops_after_removal
    (reg : Registry) (db : Db) (e u : String)
    (ic : OutboundInput OutgoingMessage) (ifr : OutboundInput FriendAction)
    (h : registryContains reg e = false) :
    chatOutboundStep reg db e u ic = (false, none)
  ∧ friendOutboundStep reg db e u ifr = (false, none) := by
  constructor
  · cases ic <;> simp [chatOutboundStep, h]
  · cases ifr <;> simp [friendOutboundStep, h]

/-- Claim C8, witness: the empty registry does not contain the key, and
both outbound loops stop on the next watchdog tick. -/
theorem c8_outbound_stops_witness :
    registryContains [] "amy@example.com" = false
  ∧ chatOutboundStep [] c8db "amy@example.com" "amy" .watchdogTick = (false, none)
  ∧ friendOutboundStep [] c8db "amy@example.com" "amy" .watchdogTick = (false, none) :=
  ⟨by decide,
   (c8_outbound_stops_after_removal [] c8db "amy@example.com" "amy"
     .watchdogTick .watchdogTick (by decide)).1,
   (c8_outbound_stops_after_removal [] c8db "amy@example.com" "amy"
     .watchdogTick .watchdogTick (by decide)).2⟩

/-- Claim C9: every chat insert passes through the `enforce_chat_order`
trigger, so the stored row holds the lexicographically smaller username
first whatever order the inserting code supplied: supplying the pair in
ascending order stores it unchanged, supplying it in descending order
stores it swapped, and in particular inserting (`zoe`, `amy`) stores
(`amy`, `zoe`). -/
theorem c9_chat_insert_canonicalizes :
    (∀ (db : Db) (now : Nat),
       (insertChat db "zoe" "amy" now).2.first_user_name = "amy"
       ∧ (insertChat db "zoe" "amy" now).2.second_user_name = "zoe")
  ∧ (∀ (db : Db) (f s : String) (now : Nat), strLt f s = true →
       (insertChat db f s now).2.first_user_name = f
       ∧ (insertChat db f s now).2.second_user_name = s)
  ∧ (∀ (db : Db) (f s : String) (now : Nat), strLt s f = true →
       (insertChat db f s now).2.first_user_name = s
       ∧ (insertChat db f s now).2.second_user_name = f) := by
  refine ⟨?_, ?_, ?_⟩
  · intro db now
    have h : strLt "amy" "zoe" = true := by decide
    simp [insertChat, enforce_chat_order, h]
  · intro db f s now h
    have h2 : strLt s f = false := strLt_asymm f s h
    simp [insertChat, enforce_chat_order, h2]
  · intro db f s now h
    simp [insertChat, enforce_chat_order, h]

/-- Claim C9, witness: `amy` before `zoe` in both supply orders. -/
theorem c9_chat_insert_witness :
    strLt "amy" "zoe" = true
  ∧ (insertChat c9db "amy" "zoe" 0).2.first_user_name = "amy"
  ∧ (insertChat c9db "amy" "zoe" 0).2.second_user_name = "zoe"
  ∧ (insertChat c9db "zoe" "amy" 0).2.first_user_name = "amy"
  ∧ (insertChat c9db "zoe" "amy" 0).2.second_user_name = "zoe" :=
  ⟨by decide,
   (c9_chat_insert_canonicalizes.2.1 c9db "amy" "zoe" 0 (by decide)).1,
   (c9_chat_insert_canonicalizes.2.1 c9db "amy" "zoe" 0 (by decide)).2,
   (c9_chat_insert_canonicalizes.2.2 c9db "zoe" "amy" 0 (by decide)).1,
   (c9_chat_insert_canonicalizes.2.2 c9db "zoe" "amy" 0 (by decide)).2⟩

/-- Claim C10: a `new_message` frame whose payload deserializes with no
`chat_partner` is a silent no-op: store and registry unchanged, nothing
published, no error frame, and the loop keeps reading. -/
theorem c10_new_message_without_partner_noop
    (db : Db) (reg : Registry) (username email text : String)
    (rep : Option Int) (now : Nat) :
    handleChatFrame username email
      (.frame "new_message" (.pNewMessage ⟨text, none, rep⟩)) db reg now
      = ⟨db, reg, [], [], .continueLoop⟩ := by
  simp [handleChatFrame, handle_new_message]

end Kutter

